import Mathlib

/-!
# ZSTDPlugin: buffer lifecycle of `FZSTDUtils` (`Source/ZSTDPlugin/Classes/ZSTDTypes.h`)

A shallow embedding of the header.  The codec (`zstd.h`) and the host allocator
(`FMemory`) are collaborators that the header only calls; they are parameters of
the embedding (`Codec`, `Allocator`).  Every call that crosses one of these two
boundaries is recorded in a trace, so that statements such as "the codec is not
invoked" or "the destination is reallocated to exactly this size" are statements
about the value a function computes.

* `SIZE_T` and `unsigned long long` (`FZSTDDecSize`) are 64-bit; a size is a `Nat`, and
  the header performs no arithmetic on sizes.  An `int32` level is an `Int`.
* `check(e)` is the fatal assertion of the host engine, taken as compiled in: a failing
  check stops the run (`Fault.checkFailed`).
* A one-shot call of the codec does not depend on the history of the context it is given.
* A `void*` is `none` (null) or `some block`, the bytes of the allocation it points to.
-/

namespace ZSTDPlugin

/-! ## Machine types -/

abbrev uint8 := Fin 256
/-- A `void*`: null, or the bytes of the allocation it points to. -/
abbrev Ptr := Option (List uint8)
/-- A `TArray<uint8>`. -/
abbrev TArray := List uint8
/-- The handle types of the codec; a handle is an opaque identifier. -/
abbrev ZSTD_CCtx := Nat
abbrev ZSTD_DCtx := Nat

/-- Modelled from the spec: `ZSTD_CONTENTSIZE_UNKNOWN` is a constant of `zstd.h`, which is
not part of the sources; it is the reserved "unknown size" value `0ULL - 1`. -/
def ZSTD_CONTENTSIZE_UNKNOWN : Nat := 2 ^ 64 - 1

/-- Modelled from the spec: `ZSTD_CONTENTSIZE_ERROR` is a constant of `zstd.h`, which is
not part of the sources; it is the reserved "error" value `0ULL - 2`. -/
def ZSTD_CONTENTSIZE_ERROR : Nat := 2 ^ 64 - 2

/-! ## Effects: faults and the trace of boundary calls -/

inductive Fault where
  /-- A `check(...)` failed. -/
  | checkFailed
  /-- A null handle was dereferenced (`operator*` of a context wrapper). -/
  | nullDereference
  /-- `Memcpy` was asked to read or write past the end of a block. -/
  | outOfBounds
  deriving DecidableEq, Repr

inductive Event where
  | Malloc (Count : Nat)
  /-- `FMemory::Realloc(Original, Count)`; `OriginalSize` is the size of the block passed in. -/
  | Realloc (OriginalSize : Nat) (Count : Nat)
  | Free
  | ZSTD_maxCLevel
  | ZSTD_createCCtx_advanced
  | ZSTD_createDCtx_advanced
  | ZSTD_freeCCtx
  | ZSTD_freeDCtx
  | ZSTD_compressBound (srcSize : Nat)
  | ZSTD_compressCCtx (dstCapacity : Nat) (srcSize : Nat) (compressionLevel : Int)
  | ZSTD_findDecompressedSize (srcSize : Nat)
  | ZSTD_decompressDCtx (dstCapacity : Nat) (srcSize : Nat)
  deriving DecidableEq, Repr

/-- How a run ends: it returns a value, or it is stopped by a fault. -/
inductive Outcome (α : Type) where
  | returned (a : α)
  | fatal (f : Fault)
  deriving DecidableEq, Repr

/-- A run of a function of the header: the boundary calls it made, in order, and how it ended. -/
structure Run (α : Type) where
  trace : List Event
  outcome : Outcome α
  deriving DecidableEq, Repr

def Run.pure {α : Type} (a : α) : Run α := ⟨[], .returned a⟩

def Run.bind {α β : Type} (x : Run α) (f : α → Run β) : Run β :=
  match x.outcome with
  | .returned a => ⟨x.trace ++ (f a).trace, (f a).outcome⟩
  | .fatal e => ⟨x.trace, .fatal e⟩

instance : Monad Run where
  pure := Run.pure
  bind := Run.bind

/-- Record one boundary call. -/
def emit (e : Event) : Run Unit := ⟨[e], .returned ()⟩

/-- Stop the run. -/
def abort {α : Type} (f : Fault) : Run α := ⟨[], .fatal f⟩

/-- The fatal assertion `check(e)` of the host engine. -/
def check (e : Bool) : Run Unit := if e then Run.pure () else abort .checkFailed

/-! ## The collaborators -/

/-- The codec library (`zstd.h`).  A one-shot call returns its `size_t` result (a byte
count, or one of the error codes of the codec) together with the bytes it stored at the start
of `dst`.  `src` is the readable memory at the source pointer. -/
structure Codec where
  ZSTD_maxCLevel : Int
  ZSTD_compressBound : (srcSize : Nat) → Nat
  /-- The handle `ZSTD_createCCtx_advanced` returns; `none` is a null handle. -/
  ZSTD_createCCtx_advanced : Option ZSTD_CCtx
  ZSTD_createDCtx_advanced : Option ZSTD_DCtx
  ZSTD_compressCCtx : (cctx : ZSTD_CCtx) → (dstCapacity : Nat) → (src : List uint8) →
    (srcSize : Nat) → (compressionLevel : Int) → Nat × List uint8
  ZSTD_findDecompressedSize : (src : List uint8) → (srcSize : Nat) → Nat
  ZSTD_decompressDCtx : (dctx : ZSTD_DCtx) → (dstCapacity : Nat) → (src : List uint8) →
    (srcSize : Nat) → Nat × List uint8

/-- The host allocator (`FMemory`).  It decides which requests are answered with a null
pointer, and what an uninitialised byte holds. -/
structure Allocator where
  /-- `Malloc(Count)` returns null. -/
  MallocFails : (Count : Nat) → Bool
  /-- `Realloc(Original, Count)` on a block of `OriginalSize` bytes returns null. -/
  ReallocFails : (OriginalSize : Nat) → (Count : Nat) → Bool
  /-- The value of the uninitialised byte at an offset of a fresh block. -/
  Uninitialised : Nat → uint8

/-- The bytes readable at a pointer (none at null). -/
def Ptr.bytes (p : Ptr) : List uint8 := p.getD []

/-- The block after `out` has been stored at its start; a store never grows the block. -/
def storeAt (block : List uint8) (out : List uint8) : List uint8 :=
  (out ++ block.drop out.length).take block.length

/-- The memory at `p` after `out` has been stored at its start. -/
def Ptr.store (p : Ptr) (out : List uint8) : Ptr := p.map (fun block => storeAt block out)

/-- The pointer `Malloc(Count)` returns: null, or a fresh block of `Count` bytes. -/
def Allocator.Malloc (A : Allocator) (Count : Nat) : Ptr :=
  if A.MallocFails Count then none else some ((List.range Count).map A.Uninitialised)

/-- The pointer `Realloc(Original, Count)` returns: null, or a block of `Count` bytes that
keeps the first `min OriginalSize Count` bytes.  A null `Original` makes it a `Malloc`. -/
def Allocator.Realloc (A : Allocator) (Original : Ptr) (Count : Nat) : Ptr :=
  match Original with
  | none => A.Malloc Count
  | some block =>
    if A.ReallocFails block.length Count then none
    else some (block.take Count ++
      (List.range (Count - block.length)).map (fun i => A.Uninitialised (block.length + i)))

def FMemory.Malloc (A : Allocator) (Count : Nat) : Run Ptr := do
  emit (.Malloc Count)
  pure (A.Malloc Count)

def FMemory.Realloc (A : Allocator) (Original : Ptr) (Count : Nat) : Run Ptr := do
  emit (.Realloc Original.bytes.length Count)
  pure (A.Realloc Original Count)

def FMemory.Free (_Original : Ptr) : Run Unit := emit .Free

/-- Modelled from the spec: `FMemory::Memcpy` belongs to the host engine and is not part of
the sources; it "copies all bytes": the first `Count` bytes of `Dest` become the first
`Count` bytes of `Src`.  Reading or writing past the end of a block is a fault. -/
def FMemory.Memcpy (Dest : List uint8) (Src : List uint8) (Count : Nat) :
    Outcome (List uint8) :=
  if Count ≤ Src.length ∧ Count ≤ Dest.length then .returned (Src.take Count ++ Dest.drop Count)
  else .fatal .outOfBounds

/-- Modelled from the spec: `TArray::SetNumZeroed` belongs to the host engine and is not part
of the sources; it resizes the destination container to the given length: elements past
the new length are removed, missing elements are added as zeroes. -/
def TArray.SetNumZeroed (Self : TArray) (NewNum : Nat) : TArray :=
  if Self.length < NewNum then Self ++ List.replicate (NewNum - Self.length) 0
  else Self.take NewNum

/-- Modelled from the spec: `FMath::Clamp` belongs to the host engine and is not part of the
sources; the level is "clamped into `[1, maxCompressionLevel()]`": a value below `Min` becomes
`Min`, a value not below `Max` becomes `Max`. -/
def FMath.Clamp (X Min Max : Int) : Int :=
  if X < Min then Min else if X < Max then X else Max

/-! ## `FZSTDBufferData` -/

structure FZSTDBufferData where
  Buffer : Ptr
  BufferSize : Nat
  deriving DecidableEq, Repr

/-- The state `Reset` leaves, and the calls it made. -/
def FZSTDBufferData.Reset (Self : FZSTDBufferData) : Run FZSTDBufferData :=
  match Self.Buffer with
  | some block => do
    FMemory.Free (some block)
    pure { Buffer := none, BufferSize := 0 }
  | none => pure { Buffer := none, BufferSize := 0 }

/-- What a call of `Move` leaves behind: whether it ran to its end, the owner, the
destination container, and the allocator calls made.  A fault stops the call where it
happens, so the state is the one reached at that point. -/
structure MoveResult where
  fault : Option Fault
  Self : FZSTDBufferData
  OutData : TArray
  trace : List Event
  deriving DecidableEq, Repr

def FZSTDBufferData.Move (Self : FZSTDBufferData) (OutData : TArray) : MoveResult :=
  match Self.Buffer with
  | none => ⟨some .checkFailed, Self, OutData, []⟩
  | some block =>
    let OutData1 := TArray.SetNumZeroed OutData Self.BufferSize
    match FMemory.Memcpy OutData1 block Self.BufferSize with
    | .fatal f => ⟨some f, Self, OutData1, []⟩
    | .returned OutData2 =>
      let r := FZSTDBufferData.Reset Self
      match r.outcome with
      | .returned Self1 => ⟨none, Self1, OutData2, r.trace⟩
      | .fatal f => ⟨some f, Self, OutData2, r.trace⟩

/-! ## Context wrappers and shared pointers -/

structure FZSTDCCtx where
  CCtx : Option ZSTD_CCtx
  deriving DecidableEq, Repr

structure FZSTDDCtx where
  DCtx : Option ZSTD_DCtx
  deriving DecidableEq, Repr

/-- A `TSharedPtr<T>`: `none` is the null (invalid) pointer. -/
abbrev TPSZSTDBufferData := Option FZSTDBufferData
abbrev TPSZSTDCCtx := Option FZSTDCCtx
abbrev TPSZSTDDCtx := Option FZSTDDCtx

/-- The `operator*` of the wrapper: the handle, a fault when the handle is null. -/
def FZSTDCCtx.deref (Self : FZSTDCCtx) : Run ZSTD_CCtx :=
  match Self.CCtx with
  | some h => pure h
  | none => abort .nullDereference

def FZSTDDCtx.deref (Self : FZSTDDCtx) : Run ZSTD_DCtx :=
  match Self.DCtx with
  | some h => pure h
  | none => abort .nullDereference

/-- The destructor `~FZSTDCCtx`. -/
def FZSTDCCtx.destroy (Self : FZSTDCCtx) : Run Unit :=
  if Self.CCtx.isSome then emit .ZSTD_freeCCtx else pure ()

def FZSTDDCtx.destroy (Self : FZSTDDCtx) : Run Unit :=
  if Self.DCtx.isSome then emit .ZSTD_freeDCtx else pure ()

/-! ## `FZSTDUtils` -/

def FZSTDUtils.DEFAULT_COMPRESSION_LEVEL : Int := 3

def FZSTDUtils.GetMaxCompressionLevel (Z : Codec) : Run Int := do
  emit .ZSTD_maxCLevel
  pure Z.ZSTD_maxCLevel

def FZSTDUtils.CreateCCtx (Z : Codec) : Run TPSZSTDCCtx := do
  emit .ZSTD_createCCtx_advanced
  pure (some { CCtx := Z.ZSTD_createCCtx_advanced })

def FZSTDUtils.CreateDCtx (Z : Codec) : Run TPSZSTDDCtx := do
  emit .ZSTD_createDCtx_advanced
  pure (some { DCtx := Z.ZSTD_createDCtx_advanced })

def FZSTDUtils.GetCompressionSize (Z : Codec) (SrcBuffSize : Nat) : Run Nat := do
  emit (.ZSTD_compressBound SrcBuffSize)
  pure (Z.ZSTD_compressBound SrcBuffSize)

def FZSTDUtils.GetDecompressionSize (Z : Codec) (SrcBuff : Ptr) (SrcBuffSize : Nat) :
    Run Nat := do
  emit (.ZSTD_findDecompressedSize SrcBuffSize)
  pure (Z.ZSTD_findDecompressedSize SrcBuff.bytes SrcBuffSize)

def FZSTDUtils.IsValidDecompressionSize (SrcBuffSize : Nat) : Bool :=
  SrcBuffSize != ZSTD_CONTENTSIZE_ERROR && SrcBuffSize != ZSTD_CONTENTSIZE_UNKNOWN

/-- The private `CompressData(ZSTD_CCtx&, SrcBuff, SrcBuffSize, DstBuff, DstBuffSize,
CompressionLevel)` (lines 272-278).  Returns the result of the codec and the memory at
`DstBuff` after the call. -/
def FZSTDUtils.CompressDataRaw (Z : Codec) (CCtx : ZSTD_CCtx) (SrcBuff : Ptr)
    (SrcBuffSize : Nat) (DstBuff : Ptr) (DstBuffSize : Nat) (CompressionLevel : Int) :
    Run (Nat × Ptr) := do
  check SrcBuff.isSome
  check DstBuff.isSome
  let maxLevel ← FZSTDUtils.GetMaxCompressionLevel Z
  let level := FMath.Clamp CompressionLevel 1 maxLevel
  emit (.ZSTD_compressCCtx DstBuffSize SrcBuffSize level)
  let r := Z.ZSTD_compressCCtx CCtx DstBuffSize SrcBuff.bytes SrcBuffSize level
  pure (r.1, DstBuff.store r.2)

/-- The public `CompressData(TPSZSTDCCtx, SrcBuff, SrcBuffSize, void*& DstBuff, DstBuffSize,
CompressionLevel, bRealloc)` (lines 198-207).  Returns the size and the new `DstBuff`. -/
def FZSTDUtils.CompressDataInto (Z : Codec) (A : Allocator) (CCtx : TPSZSTDCCtx) (SrcBuff : Ptr)
    (SrcBuffSize : Nat) (DstBuff : Ptr) (DstBuffSize : Nat)
    (CompressionLevel : Int) (bRealloc : Bool) : Run (Nat × Ptr) := do
  check SrcBuff.isSome
  check DstBuff.isSome
  match CCtx with
  | none => abort .checkFailed
  | some wrapper =>
    let handle ← wrapper.deref
    let (compressedSize, DstBuff1) ←
      FZSTDUtils.CompressDataRaw Z handle SrcBuff SrcBuffSize DstBuff DstBuffSize CompressionLevel
    if bRealloc then
      let DstBuff2 ← FMemory.Realloc A DstBuff1 compressedSize
      pure (compressedSize, DstBuff2)
    else
      pure (compressedSize, DstBuff1)

/-- The buffer-returning `CompressData(TPSZSTDCCtx, SrcBuff, SrcBuffSize, CompressionLevel)`
(lines 178-196). -/
def FZSTDUtils.CompressDataCtx (Z : Codec) (A : Allocator) (CCtx : TPSZSTDCCtx) (SrcBuff : Ptr)
    (SrcBuffSize : Nat) (CompressionLevel : Int) : Run TPSZSTDBufferData :=
  if CCtx.isSome && SrcBuff.isSome then do
    emit (.ZSTD_compressBound SrcBuffSize)
    let dstBuffSize := Z.ZSTD_compressBound SrcBuffSize
    let dstBuff ← FMemory.Malloc A dstBuffSize
    let (compressedSize, dstBuff1) ←
      FZSTDUtils.CompressDataInto Z A CCtx SrcBuff SrcBuffSize dstBuff dstBuffSize
        CompressionLevel true
    pure (some { Buffer := dstBuff1, BufferSize := compressedSize })
  else
    pure none

/-- The context-less `CompressData(SrcBuff, SrcBuffSize, CompressionLevel)` (lines 170-176);
the temporary context is destroyed when the call has returned. -/
def FZSTDUtils.CompressData (Z : Codec) (A : Allocator) (SrcBuff : Ptr) (SrcBuffSize : Nat)
    (CompressionLevel : Int) : Run TPSZSTDBufferData :=
  if SrcBuff.isSome then do
    let CCtx ← FZSTDUtils.CreateCCtx Z
    let bufferData ← FZSTDUtils.CompressDataCtx Z A CCtx SrcBuff SrcBuffSize CompressionLevel
    match CCtx with
    | some wrapper => wrapper.destroy
    | none => pure ()
    pure bufferData
  else
    pure none

/-- The private `DecompressData(ZSTD_DCtx&, SrcBuff, SrcBuffSize, DstBuff, DstBuffSize)`
(lines 280-287). -/
def FZSTDUtils.DecompressDataRaw (Z : Codec) (DCtx : ZSTD_DCtx) (SrcBuff : Ptr)
    (SrcBuffSize : Nat) (DstBuff : Ptr) (DstBuffSize : Nat) : Run (Nat × Ptr) := do
  check SrcBuff.isSome
  check DstBuff.isSome
  check (FZSTDUtils.IsValidDecompressionSize DstBuffSize)
  emit (.ZSTD_decompressDCtx DstBuffSize SrcBuffSize)
  let r := Z.ZSTD_decompressDCtx DCtx DstBuffSize SrcBuff.bytes SrcBuffSize
  pure (r.1, DstBuff.store r.2)

/-- The public `DecompressData(TPSZSTDDCtx, SrcBuff, SrcBuffSize, void*& DstBuff, DstBuffSize,
bRealloc)` (lines 243-253). -/
def FZSTDUtils.DecompressDataInto (Z : Codec) (A : Allocator) (DCtx : TPSZSTDDCtx)
    (SrcBuff : Ptr) (SrcBuffSize : Nat) (DstBuff : Ptr) (DstBuffSize : Nat)
    (bRealloc : Bool) : Run (Nat × Ptr) := do
  check SrcBuff.isSome
  check DstBuff.isSome
  match DCtx with
  | none => abort .checkFailed
  | some wrapper =>
    check (FZSTDUtils.IsValidDecompressionSize DstBuffSize)
    let handle ← wrapper.deref
    let (compressedSize, DstBuff1) ←
      FZSTDUtils.DecompressDataRaw Z handle SrcBuff SrcBuffSize DstBuff DstBuffSize
    if bRealloc && DstBuffSize != compressedSize then
      let DstBuff2 ← FMemory.Realloc A DstBuff1 compressedSize
      pure (compressedSize, DstBuff2)
    else
      pure (compressedSize, DstBuff1)

/-- The buffer-returning `DecompressData(TPSZSTDDCtx, SrcBuff, SrcBuffSize)` (lines 216-241). -/
def FZSTDUtils.DecompressDataCtx (Z : Codec) (A : Allocator) (DCtx : TPSZSTDDCtx)
    (SrcBuff : Ptr) (SrcBuffSize : Nat) : Run TPSZSTDBufferData :=
  if DCtx.isSome && SrcBuff.isSome then do
    let typeSize ← FZSTDUtils.GetDecompressionSize Z SrcBuff SrcBuffSize
    if FZSTDUtils.IsValidDecompressionSize typeSize then
      let dstSize : Nat := typeSize
      let dstBuff ← FMemory.Malloc A dstSize
      let (decompressedSize, dstBuff1) ←
        FZSTDUtils.DecompressDataInto Z A DCtx SrcBuff SrcBuffSize dstBuff dstSize true
      pure (some { Buffer := dstBuff1, BufferSize := decompressedSize })
    else
      pure none
  else
    pure none

/-- The context-less `DecompressData(SrcBuff, SrcBuffSize)` (lines 209-214). -/
def FZSTDUtils.DecompressData (Z : Codec) (A : Allocator) (SrcBuff : Ptr)
    (SrcBuffSize : Nat) : Run TPSZSTDBufferData :=
  if SrcBuff.isSome then do
    let DCtx ← FZSTDUtils.CreateDCtx Z
    let bufferData ← FZSTDUtils.DecompressDataCtx Z A DCtx SrcBuff SrcBuffSize
    match DCtx with
    | some wrapper => wrapper.destroy
    | none => pure ()
    pure bufferData
  else
    pure none

/-! ## A small codec and a host allocator on which the functions can be run -/

/-- A codec that stores its input behind a one-byte length header.  Like the real codec,
the size probe reads the header only, and the decompress call also checks the payload
against it; errors are reported as error codes (`2 ^ 64 - code`). -/
def storedCodec : Codec where
  ZSTD_maxCLevel := 22
  ZSTD_compressBound := fun srcSize => srcSize + 1
  ZSTD_createCCtx_advanced := some 1
  ZSTD_createDCtx_advanced := some 2
  ZSTD_compressCCtx := fun _ dstCapacity src srcSize _ =>
    if srcSize < 256 ∧ srcSize + 1 ≤ dstCapacity then
      (srcSize + 1, (Fin.ofNat srcSize : uint8) :: src.take srcSize)
    else (2 ^ 64 - 70, [])
  ZSTD_findDecompressedSize := fun src srcSize =>
    match src.take srcSize with
    | [] => ZSTD_CONTENTSIZE_ERROR
    | header :: _ => header.val
  ZSTD_decompressDCtx := fun _ dstCapacity src srcSize =>
    match src.take srcSize with
    | [] => (2 ^ 64 - 72, [])
    | header :: payload =>
      if payload.length = header.val then
        if header.val ≤ dstCapacity then (header.val, payload) else (2 ^ 64 - 70, [])
      else (2 ^ 64 - 20, [])

/-- An allocator that answers every request below `2 ^ 48` bytes with a block (a request
for zero bytes included), and a reallocation to zero bytes with a null pointer. -/
def hostAllocator : Allocator where
  MallocFails := fun Count => decide (2 ^ 48 ≤ Count)
  ReallocFails := fun _ Count => decide (Count = 0 ∨ 2 ^ 48 ≤ Count)
  Uninitialised := fun _ => 205

/-! ## Lemmas on runs -/

theorem storeAt_length (block out : List uint8) : (storeAt block out).length = block.length := by
  simp only [storeAt, List.length_take, List.length_append, List.length_drop]
  omega

theorem Allocator.Malloc_ok (A : Allocator) (Count : Nat) (h : A.MallocFails Count = false) :
    A.Malloc Count = some ((List.range Count).map A.Uninitialised) := by
  simp [Allocator.Malloc, h]

theorem Allocator.Malloc_store_length (A : Allocator) (Count : Nat) (out : List uint8)
    (h : A.MallocFails Count = false) :
    ((A.Malloc Count).store out).bytes.length = Count := by
  simp [A.Malloc_ok Count h, Ptr.store, Ptr.bytes, storeAt_length]

theorem Allocator.Realloc_length (A : Allocator) (Original : Ptr) (Count : Nat)
    (block : List uint8) (h : A.Realloc Original Count = some block) : block.length = Count := by
  cases Original with
  | none =>
    simp only [Allocator.Realloc, Allocator.Malloc] at h
    split at h
    · simp at h
    · simp only [Option.some.injEq] at h
      simp [← h]
  | some original =>
    simp only [Allocator.Realloc] at h
    split at h
    · simp at h
    · simp only [Option.some.injEq] at h
      simp only [← h, List.length_append, List.length_take, List.length_map, List.length_range]
      omega

theorem FMath.Clamp_eq_max_min (X Max : Int) (h : 1 ≤ Max) :
    FMath.Clamp X 1 Max = max 1 (min X Max) := by
  unfold FMath.Clamp
  rcases lt_or_le X 1 with h1 | h1
  · rw [if_pos h1, max_eq_left]
    exact le_trans (min_le_left _ _) (by omega)
  · rw [if_neg (by omega)]
    rcases lt_or_le X Max with h2 | h2
    · rw [if_pos h2, min_eq_left (by omega), max_eq_right h1]
    · rw [if_neg (by omega), min_eq_right h2, max_eq_right h]

theorem IsValidDecompressionSize_iff (size : Nat) :
    FZSTDUtils.IsValidDecompressionSize size = true ↔ size ≠ 2 ^ 64 - 2 ∧ size ≠ 2 ^ 64 - 1 := by
  simp [FZSTDUtils.IsValidDecompressionSize, ZSTD_CONTENTSIZE_ERROR, ZSTD_CONTENTSIZE_UNKNOWN]

/-- The run of the private `CompressData` on non-null pointers. -/
theorem CompressDataRaw_run (Z : Codec) (cctx : ZSTD_CCtx) (src dst : List uint8)
    (SrcBuffSize DstBuffSize : Nat) (L : Int) :
    FZSTDUtils.CompressDataRaw Z cctx (some src) SrcBuffSize (some dst) DstBuffSize L =
      ⟨[.ZSTD_maxCLevel,
        .ZSTD_compressCCtx DstBuffSize SrcBuffSize (FMath.Clamp L 1 Z.ZSTD_maxCLevel)],
       .returned
        ((Z.ZSTD_compressCCtx cctx DstBuffSize src SrcBuffSize
            (FMath.Clamp L 1 Z.ZSTD_maxCLevel)).1,
         some (storeAt dst (Z.ZSTD_compressCCtx cctx DstBuffSize src SrcBuffSize
            (FMath.Clamp L 1 Z.ZSTD_maxCLevel)).2))⟩ := by
  simp [FZSTDUtils.CompressDataRaw, FZSTDUtils.GetMaxCompressionLevel, check, emit,
    bind, pure, Run.bind, Run.pure, Ptr.store, Ptr.bytes]

/-- The run of the buffer-returning `CompressData` on a context that holds a handle, a
non-null source and an allocator that answers the `Malloc`. -/
theorem CompressDataCtx_run (Z : Codec) (A : Allocator) (cctx : ZSTD_CCtx) (src : List uint8)
    (SrcBuffSize : Nat) (L : Int) (bound compressedSize : Nat) (frame : List uint8)
    (hbound : Z.ZSTD_compressBound SrcBuffSize = bound)
    (hcodec : Z.ZSTD_compressCCtx cctx bound src SrcBuffSize
      (FMath.Clamp L 1 Z.ZSTD_maxCLevel) = (compressedSize, frame))
    (hA : A.MallocFails bound = false) :
    FZSTDUtils.CompressDataCtx Z A (some ⟨some cctx⟩) (some src) SrcBuffSize L =
      ⟨[.ZSTD_compressBound SrcBuffSize, .Malloc bound, .ZSTD_maxCLevel,
        .ZSTD_compressCCtx bound SrcBuffSize (FMath.Clamp L 1 Z.ZSTD_maxCLevel),
        .Realloc bound compressedSize],
       .returned (some
        { Buffer := A.Realloc ((A.Malloc bound).store frame) compressedSize,
          BufferSize := compressedSize })⟩ := by
  rw [A.Malloc_ok bound hA]
  simp [FZSTDUtils.CompressDataCtx, FZSTDUtils.CompressDataInto, CompressDataRaw_run,
    FZSTDUtils.GetCompressionSize, FMemory.Malloc, FMemory.Realloc, FZSTDCCtx.deref,
    A.Malloc_ok bound hA, hbound, hcodec, check, emit, bind, pure, Run.bind, Run.pure,
    Ptr.store, Ptr.bytes, storeAt_length]

/-- The run of the buffer-returning `DecompressData` on a context that holds a handle, a
non-null source whose probed size is a real size, and an allocator that answers the
`Malloc`. -/
theorem DecompressDataCtx_run (Z : Codec) (A : Allocator) (dctx : ZSTD_DCtx)
    (src : List uint8) (SrcBuffSize : Nat) (probed decompressedSize : Nat)
    (decoded : List uint8)
    (hprobe : Z.ZSTD_findDecompressedSize src SrcBuffSize = probed)
    (hvalid : FZSTDUtils.IsValidDecompressionSize probed = true)
    (hcodec : Z.ZSTD_decompressDCtx dctx probed src SrcBuffSize = (decompressedSize, decoded))
    (hA : A.MallocFails probed = false) :
    FZSTDUtils.DecompressDataCtx Z A (some ⟨some dctx⟩) (some src) SrcBuffSize =
      ⟨[.ZSTD_findDecompressedSize SrcBuffSize, .Malloc probed,
        .ZSTD_decompressDCtx probed SrcBuffSize] ++
        (if probed = decompressedSize then [] else [.Realloc probed decompressedSize]),
       .returned (some
        { Buffer := if probed = decompressedSize then (A.Malloc probed).store decoded
            else A.Realloc ((A.Malloc probed).store decoded) decompressedSize,
          BufferSize := decompressedSize })⟩ := by
  rw [A.Malloc_ok probed hA]
  by_cases hEq : probed = decompressedSize
  · subst hEq
    simp [FZSTDUtils.DecompressDataCtx, FZSTDUtils.DecompressDataInto,
      FZSTDUtils.DecompressDataRaw, FZSTDUtils.GetDecompressionSize, FMemory.Malloc,
      FZSTDDCtx.deref, A.Malloc_ok probed hA, hprobe, hcodec, hvalid, check, emit, bind, pure,
      Run.bind, Run.pure, Ptr.store, Ptr.bytes]
  · simp [FZSTDUtils.DecompressDataCtx, FZSTDUtils.DecompressDataInto,
      FZSTDUtils.DecompressDataRaw, FZSTDUtils.GetDecompressionSize, FMemory.Malloc,
      FMemory.Realloc, FZSTDDCtx.deref, A.Malloc_ok probed hA, hprobe, hcodec, hvalid, check,
      emit, bind, pure, Run.bind, Run.pure, Ptr.store, Ptr.bytes, hEq, storeAt_length]

/-- The run of the context-less `CompressData`: the run of the context-taking overload
between the creation and the destruction of a temporary context. -/
theorem CompressData_run (Z : Codec) (A : Allocator) (cctx : ZSTD_CCtx) (src : List uint8)
    (SrcBuffSize : Nat) (L : Int) (bound compressedSize : Nat) (frame : List uint8)
    (hctx : Z.ZSTD_createCCtx_advanced = some cctx)
    (hbound : Z.ZSTD_compressBound SrcBuffSize = bound)
    (hcodec : Z.ZSTD_compressCCtx cctx bound src SrcBuffSize
      (FMath.Clamp L 1 Z.ZSTD_maxCLevel) = (compressedSize, frame))
    (hA : A.MallocFails bound = false) :
    FZSTDUtils.CompressData Z A (some src) SrcBuffSize L =
      ⟨[.ZSTD_createCCtx_advanced, .ZSTD_compressBound SrcBuffSize, .Malloc bound,
        .ZSTD_maxCLevel,
        .ZSTD_compressCCtx bound SrcBuffSize (FMath.Clamp L 1 Z.ZSTD_maxCLevel),
        .Realloc bound compressedSize, .ZSTD_freeCCtx],
       .returned (some
        { Buffer := A.Realloc ((A.Malloc bound).store frame) compressedSize,
          BufferSize := compressedSize })⟩ := by
  simp [FZSTDUtils.CompressData, FZSTDUtils.CreateCCtx, hctx, FZSTDCCtx.destroy,
    CompressDataCtx_run Z A cctx src SrcBuffSize L bound compressedSize frame hbound hcodec hA,
    emit, bind, pure, Run.bind, Run.pure]

/-- The level reaches the codec only through `FMath.Clamp`: two levels with the same
clamped value give the same run. -/
theorem CompressDataRaw_congr_level (Z : Codec) (L1 L2 : Int)
    (h : FMath.Clamp L1 1 Z.ZSTD_maxCLevel = FMath.Clamp L2 1 Z.ZSTD_maxCLevel)
    (cctx : ZSTD_CCtx) (SrcBuff : Ptr) (SrcBuffSize : Nat) (DstBuff : Ptr)
    (DstBuffSize : Nat) :
    FZSTDUtils.CompressDataRaw Z cctx SrcBuff SrcBuffSize DstBuff DstBuffSize L1 =
      FZSTDUtils.CompressDataRaw Z cctx SrcBuff SrcBuffSize DstBuff DstBuffSize L2 := by
  simp [FZSTDUtils.CompressDataRaw, FZSTDUtils.GetMaxCompressionLevel, emit, bind, pure,
    Run.bind, Run.pure, h]

theorem CompressData_congr_level (Z : Codec) (A : Allocator) (L1 L2 : Int)
    (h : FMath.Clamp L1 1 Z.ZSTD_maxCLevel = FMath.Clamp L2 1 Z.ZSTD_maxCLevel)
    (SrcBuff : Ptr) (SrcBuffSize : Nat) :
    FZSTDUtils.CompressData Z A SrcBuff SrcBuffSize L1 =
      FZSTDUtils.CompressData Z A SrcBuff SrcBuffSize L2 := by
  simp only [FZSTDUtils.CompressData, FZSTDUtils.CompressDataCtx, FZSTDUtils.CompressDataInto,
    CompressDataRaw_congr_level Z L1 L2 h]

/-- The call of `Move` on an owner whose non-null `Buffer` holds `BufferSize` bytes. -/
theorem FZSTDBufferData.Move_run (Self : FZSTDBufferData) (block : List uint8)
    (OutData : TArray) (hBuffer : Self.Buffer = some block)
    (hholds : Self.BufferSize ≤ block.length) :
    Self.Move OutData =
      ⟨none, { Buffer := none, BufferSize := 0 }, block.take Self.BufferSize, [.Free]⟩ := by
  have hlen : (TArray.SetNumZeroed OutData Self.BufferSize).length = Self.BufferSize := by
    unfold TArray.SetNumZeroed
    split
    · simp only [List.length_append, List.length_replicate]
      omega
    · simp only [List.length_take]
      omega
  have hcopy : FMemory.Memcpy (TArray.SetNumZeroed OutData Self.BufferSize) block
      Self.BufferSize = .returned (block.take Self.BufferSize) := by
    have hdrop : (TArray.SetNumZeroed OutData Self.BufferSize).drop Self.BufferSize = [] :=
      List.drop_eq_nil_of_le (le_of_eq hlen)
    simp [FMemory.Memcpy, hholds, hlen, hdrop]
  simp [FZSTDBufferData.Move, FZSTDBufferData.Reset, FMemory.Free, hBuffer, hcopy, emit, bind,
    pure, Run.bind, Run.pure]

/-- Every buffer the buffer-returning overloads hand out holds exactly the `BufferSize`
bytes it announces, whenever its `Buffer` is non-null. -/
theorem produced_buffer_holds_its_size (Z : Codec) (A : Allocator) (CCtx : TPSZSTDCCtx)
    (DCtx : TPSZSTDDCtx) (SrcBuff : Ptr) (SrcBuffSize : Nat) (CompressionLevel : Int)
    (buffer : FZSTDBufferData) (block : List uint8) (hblock : buffer.Buffer = some block) :
    ((FZSTDUtils.CompressDataCtx Z A CCtx SrcBuff SrcBuffSize CompressionLevel).outcome =
        .returned (some buffer) → block.length = buffer.BufferSize) ∧
    ((FZSTDUtils.DecompressDataCtx Z A DCtx SrcBuff SrcBuffSize).outcome =
        .returned (some buffer) → block.length = buffer.BufferSize) := by
  constructor
  · intro hrun
    cases SrcBuff with
    | none => simp [FZSTDUtils.CompressDataCtx, pure, Run.pure] at hrun
    | some src =>
      cases CCtx with
      | none => simp [FZSTDUtils.CompressDataCtx, pure, Run.pure] at hrun
      | some wrapper =>
        obtain ⟨handle⟩ := wrapper
        cases hA : A.MallocFails (Z.ZSTD_compressBound SrcBuffSize) with
        | true =>
          simp [FZSTDUtils.CompressDataCtx, FZSTDUtils.CompressDataInto, FMemory.Malloc,
            Allocator.Malloc, hA, check, abort, emit, bind, pure, Run.bind, Run.pure] at hrun
        | false =>
          cases handle with
          | none =>
            simp [FZSTDUtils.CompressDataCtx, FZSTDUtils.CompressDataInto, FMemory.Malloc,
              Allocator.Malloc, hA, FZSTDCCtx.deref, check, abort, emit, bind, pure, Run.bind,
              Run.pure] at hrun
          | some cctx =>
            rw [CompressDataCtx_run Z A cctx src SrcBuffSize CompressionLevel _ _ _ rfl rfl hA]
              at hrun
            simp only [Outcome.returned.injEq, Option.some.injEq] at hrun
            subst hrun
            exact A.Realloc_length _ _ block hblock
  · intro hrun
    cases SrcBuff with
    | none => simp [FZSTDUtils.DecompressDataCtx, pure, Run.pure] at hrun
    | some src =>
      cases DCtx with
      | none => simp [FZSTDUtils.DecompressDataCtx, pure, Run.pure] at hrun
      | some wrapper =>
        obtain ⟨handle⟩ := wrapper
        cases hvalid : FZSTDUtils.IsValidDecompressionSize
            (Z.ZSTD_findDecompressedSize src SrcBuffSize) with
        | false =>
          simp [FZSTDUtils.DecompressDataCtx, FZSTDUtils.GetDecompressionSize, hvalid, emit,
            bind, pure, Run.bind, Run.pure, Ptr.bytes] at hrun
        | true =>
          cases hA : A.MallocFails (Z.ZSTD_findDecompressedSize src SrcBuffSize) with
          | true =>
            simp [FZSTDUtils.DecompressDataCtx, FZSTDUtils.DecompressDataInto,
              FZSTDUtils.GetDecompressionSize, FMemory.Malloc, Allocator.Malloc, hA, hvalid,
              check, abort, emit, bind, pure, Run.bind, Run.pure, Ptr.bytes] at hrun
          | false =>
            cases handle with
            | none =>
              simp [FZSTDUtils.DecompressDataCtx, FZSTDUtils.DecompressDataInto,
                FZSTDUtils.GetDecompressionSize, FMemory.Malloc, Allocator.Malloc, hA, hvalid,
                FZSTDDCtx.deref, check, abort, emit, bind, pure, Run.bind, Run.pure,
                Ptr.bytes] at hrun
            | some dctx =>
              rw [DecompressDataCtx_run Z A dctx src SrcBuffSize _ _ _ rfl hvalid rfl hA]
                at hrun
              simp only [Outcome.returned.injEq, Option.some.injEq] at hrun
              subst hrun
              simp only at hblock
              split at hblock
              · next hEq =>
                have hlen := A.Malloc_store_length _
                  (Z.ZSTD_decompressDCtx dctx (Z.ZSTD_findDecompressedSize src SrcBuffSize) src
                    SrcBuffSize).2 hA
                rw [hblock] at hlen
                exact hlen.trans hEq
              · exact A.Realloc_length _ _ block hblock

/-! ## The claims -/

/-- C5. Null-source short-circuit: with a null source pointer, whatever the source length,
the level and the context, the context-less and the context-taking buffer-returning
overloads of `CompressData` and `DecompressData` return the invalid (null) result, and
the run has made no call at all: no codec function, no allocation. -/
theorem null_source_short_circuit (Z : Codec) (A : Allocator) (CCtx : TPSZSTDCCtx)
    (DCtx : TPSZSTDDCtx) (SrcBuffSize : Nat) (CompressionLevel : Int) :
    FZSTDUtils.CompressData Z A none SrcBuffSize CompressionLevel = ⟨[], .returned none⟩ ∧
    FZSTDUtils.CompressDataCtx Z A CCtx none SrcBuffSize CompressionLevel
      = ⟨[], .returned none⟩ ∧
    FZSTDUtils.DecompressData Z A none SrcBuffSize = ⟨[], .returned none⟩ ∧
    FZSTDUtils.DecompressDataCtx Z A DCtx none SrcBuffSize = ⟨[], .returned none⟩ := by
  simp [FZSTDUtils.CompressData, FZSTDUtils.CompressDataCtx, FZSTDUtils.DecompressData,
    FZSTDUtils.DecompressDataCtx, pure, Run.pure]

/-- C3. Size-probe gate: for a valid decompression context and a non-null source, when the
size probe returns the error value `2 ^ 64 - 2` or the unknown-size value `2 ^ 64 - 1`,
`DecompressData` returns the invalid (null) result and the probe is the only call made: no
destination is allocated and the decompress call of the codec is not invoked.  For every
other probe value (the context holding a handle and the allocator answering the request)
the run allocates a destination of exactly that many bytes and invokes the decompress
call exactly once, with that capacity; the only call that can follow is the reallocation
to the size the codec reported. -/
theorem size_probe_gate (Z : Codec) (A : Allocator) (wrapper : FZSTDDCtx) (dctx : ZSTD_DCtx)
    (src : List uint8) (SrcBuffSize : Nat) (probed decompressedSize : Nat)
    (decoded : List uint8)
    (hprobe : Z.ZSTD_findDecompressedSize src SrcBuffSize = probed)
    (hcodec : Z.ZSTD_decompressDCtx dctx probed src SrcBuffSize = (decompressedSize, decoded)) :
    ((probed = 2 ^ 64 - 2 ∨ probed = 2 ^ 64 - 1) →
      FZSTDUtils.DecompressDataCtx Z A (some wrapper) (some src) SrcBuffSize =
        ⟨[.ZSTD_findDecompressedSize SrcBuffSize], .returned none⟩) ∧
    (probed ≠ 2 ^ 64 - 2 → probed ≠ 2 ^ 64 - 1 → wrapper.DCtx = some dctx →
      A.MallocFails probed = false →
      ∃ buffer : FZSTDBufferData,
        FZSTDUtils.DecompressDataCtx Z A (some wrapper) (some src) SrcBuffSize =
          ⟨[.ZSTD_findDecompressedSize SrcBuffSize, .Malloc probed,
            .ZSTD_decompressDCtx probed SrcBuffSize] ++
            (if probed = decompressedSize then [] else [.Realloc probed decompressedSize]),
           .returned (some buffer)⟩) := by
  constructor
  · intro hbad
    have hinvalid : FZSTDUtils.IsValidDecompressionSize probed = false := by
      rcases hbad with h | h <;>
        simp [h, FZSTDUtils.IsValidDecompressionSize, ZSTD_CONTENTSIZE_ERROR,
          ZSTD_CONTENTSIZE_UNKNOWN]
    simp [FZSTDUtils.DecompressDataCtx, FZSTDUtils.GetDecompressionSize, hprobe, hinvalid,
      emit, bind, pure, Run.bind, Run.pure, Ptr.bytes]
  · intro h1 h2 hw hA
    have hvalid := (IsValidDecompressionSize_iff probed).2 ⟨h1, h2⟩
    obtain ⟨handle⟩ := wrapper
    simp only at hw
    subst hw
    exact ⟨_, DecompressDataCtx_run Z A dctx src SrcBuffSize probed decompressedSize decoded
      hprobe hvalid hcodec hA⟩

/-- C3, on the stored codec: a source with no header is probed as an error and nothing
else happens; the frame `[3, 65, 65, 65]` is probed as 3 bytes, 3 bytes are allocated and
the decompress call is made once. -/
theorem size_probe_gate_witness :
    (storedCodec.ZSTD_findDecompressedSize [] 0 = 2 ^ 64 - 2 ∧
      FZSTDUtils.DecompressDataCtx storedCodec hostAllocator (some ⟨some 2⟩) (some []) 0 =
        ⟨[.ZSTD_findDecompressedSize 0], .returned none⟩) ∧
    (storedCodec.ZSTD_findDecompressedSize [3, 65, 65, 65] 4 = 3 ∧
      ∃ buffer : FZSTDBufferData,
        FZSTDUtils.DecompressDataCtx storedCodec hostAllocator (some ⟨some 2⟩)
          (some [3, 65, 65, 65]) 4 =
          ⟨[.ZSTD_findDecompressedSize 4, .Malloc 3, .ZSTD_decompressDCtx 3 4],
           .returned (some buffer)⟩) :=
  ⟨⟨by decide,
    (size_probe_gate storedCodec hostAllocator ⟨some 2⟩ 2 [] 0 (2 ^ 64 - 2) (2 ^ 64 - 72) []
      (by decide) (by decide)).1 (Or.inl rfl)⟩,
   ⟨by decide,
    (size_probe_gate storedCodec hostAllocator ⟨some 2⟩ 2 [3, 65, 65, 65] 4 3 3 [65, 65, 65]
      (by decide) (by decide)).2 (by decide) (by decide) rfl (by decide)⟩⟩

/-- C6. Exact sizing: for a valid context and a non-null source (the allocator answering the
`Malloc`), the buffer `CompressData` returns has `BufferSize` equal to the value the compress
call of the codec returned, and the last call of the run reallocates the destination from
`compressBound(srcLen)` bytes to exactly that size; the buffer a successful `DecompressData`
returns has `BufferSize` equal to the value the decompress call returned, and the run
contains a reallocation (to that value) exactly when that value differs from the probed
size. -/
theorem exact_sizing (Z : Codec) (A : Allocator) (cctx : ZSTD_CCtx) (dctx : ZSTD_DCtx)
    (S : List uint8) (SSize : Nat) (L : Int) (bound compressedSize : Nat) (frame : List uint8)
    (C : List uint8) (CSize : Nat) (probed decompressedSize : Nat) (decoded : List uint8)
    (hbound : Z.ZSTD_compressBound SSize = bound)
    (hcompress : Z.ZSTD_compressCCtx cctx bound S SSize (FMath.Clamp L 1 Z.ZSTD_maxCLevel)
      = (compressedSize, frame))
    (hA1 : A.MallocFails bound = false)
    (hprobe : Z.ZSTD_findDecompressedSize C CSize = probed)
    (hvalid : probed ≠ 2 ^ 64 - 2 ∧ probed ≠ 2 ^ 64 - 1)
    (hdecompress : Z.ZSTD_decompressDCtx dctx probed C CSize = (decompressedSize, decoded))
    (hA2 : A.MallocFails probed = false) :
    FZSTDUtils.CompressDataCtx Z A (some ⟨some cctx⟩) (some S) SSize L =
      ⟨[.ZSTD_compressBound SSize, .Malloc bound, .ZSTD_maxCLevel,
        .ZSTD_compressCCtx bound SSize (FMath.Clamp L 1 Z.ZSTD_maxCLevel),
        .Realloc bound compressedSize],
       .returned (some
        { Buffer := A.Realloc ((A.Malloc bound).store frame) compressedSize,
          BufferSize := compressedSize })⟩ ∧
    FZSTDUtils.DecompressDataCtx Z A (some ⟨some dctx⟩) (some C) CSize =
      ⟨[.ZSTD_findDecompressedSize CSize, .Malloc probed, .ZSTD_decompressDCtx probed CSize] ++
        (if probed = decompressedSize then [] else [.Realloc probed decompressedSize]),
       .returned (some
        { Buffer := if probed = decompressedSize then (A.Malloc probed).store decoded
            else A.Realloc ((A.Malloc probed).store decoded) decompressedSize,
          BufferSize := decompressedSize })⟩ :=
  ⟨CompressDataCtx_run Z A cctx S SSize L bound compressedSize frame hbound hcompress hA1,
   DecompressDataCtx_run Z A dctx C CSize probed decompressedSize decoded hprobe
     ((IsValidDecompressionSize_iff probed).2 hvalid) hdecompress hA2⟩

/-- C6, on the stored codec: three bytes are compressed into a frame of 4 bytes in a
destination of `compressBound 3 = 4` bytes that is reallocated to 4 bytes; the frame is
decompressed into 3 bytes with no reallocation. -/
theorem exact_sizing_witness :
    FZSTDUtils.CompressDataCtx storedCodec hostAllocator (some ⟨some 1⟩) (some [65, 66, 67]) 3 3
      = ⟨[.ZSTD_compressBound 3, .Malloc 4, .ZSTD_maxCLevel, .ZSTD_compressCCtx 4 3 3,
          .Realloc 4 4],
         .returned (some { Buffer := some [3, 65, 66, 67], BufferSize := 4 })⟩ ∧
    FZSTDUtils.DecompressDataCtx storedCodec hostAllocator (some ⟨some 2⟩)
        (some [3, 65, 66, 67]) 4
      = ⟨[.ZSTD_findDecompressedSize 4, .Malloc 3, .ZSTD_decompressDCtx 3 4],
         .returned (some { Buffer := some [65, 66, 67], BufferSize := 3 })⟩ :=
  exact_sizing storedCodec hostAllocator 1 2 [65, 66, 67] 3 3 4 4 [3, 65, 66, 67]
    [3, 65, 66, 67] 4 3 3 [65, 66, 67] (by decide) (by decide) (by decide) (by decide)
    (by decide) (by decide) (by decide)

/-- C4. Level clamping: for every level `L` the private `CompressData` hands the codec the
level `max 1 (min L maxLevel)`, which lies in `[1, maxLevel]` (given `1 ≤ maxLevel`);
`CompressData(S, 0)` is the same run as `CompressData(S, 1)` and
`CompressData(S, maxLevel + 100)` the same run as `CompressData(S, maxLevel)`; and whatever
the level, `CompressData` returns a valid buffer whose size is the value the codec
returned at the clamped level (the created context holding a handle and the allocator
answering the `Malloc`). -/
theorem level_clamping (Z : Codec) (A : Allocator) (cctx : ZSTD_CCtx) (S dst : List uint8)
    (SSize DstBuffSize : Nat)
    (hmax : 1 ≤ Z.ZSTD_maxCLevel)
    (hctx : Z.ZSTD_createCCtx_advanced = some cctx)
    (hA : A.MallocFails (Z.ZSTD_compressBound SSize) = false) :
    (∀ L : Int,
      FZSTDUtils.CompressDataRaw Z cctx (some S) SSize (some dst) DstBuffSize L =
        ⟨[.ZSTD_maxCLevel,
          .ZSTD_compressCCtx DstBuffSize SSize (max 1 (min L Z.ZSTD_maxCLevel))],
         .returned
          ((Z.ZSTD_compressCCtx cctx DstBuffSize S SSize (max 1 (min L Z.ZSTD_maxCLevel))).1,
           some (storeAt dst
            (Z.ZSTD_compressCCtx cctx DstBuffSize S SSize
              (max 1 (min L Z.ZSTD_maxCLevel))).2))⟩) ∧
    (∀ L : Int, 1 ≤ max 1 (min L Z.ZSTD_maxCLevel) ∧
      max 1 (min L Z.ZSTD_maxCLevel) ≤ Z.ZSTD_maxCLevel) ∧
    FZSTDUtils.CompressData Z A (some S) SSize 0 = FZSTDUtils.CompressData Z A (some S) SSize 1 ∧
    FZSTDUtils.CompressData Z A (some S) SSize (Z.ZSTD_maxCLevel + 100) =
      FZSTDUtils.CompressData Z A (some S) SSize Z.ZSTD_maxCLevel ∧
    (∀ L : Int, ∃ Buffer : Ptr,
      (FZSTDUtils.CompressData Z A (some S) SSize L).outcome =
        .returned (some
          { Buffer := Buffer,
            BufferSize := (Z.ZSTD_compressCCtx cctx (Z.ZSTD_compressBound SSize) S SSize
              (max 1 (min L Z.ZSTD_maxCLevel))).1 })) := by
  refine ⟨?_, ?_, ?_, ?_, ?_⟩
  · intro L
    rw [CompressDataRaw_run, FMath.Clamp_eq_max_min L _ hmax]
  · intro L
    exact ⟨le_max_left _ _, max_le hmax (min_le_right _ _)⟩
  · apply CompressData_congr_level
    rw [FMath.Clamp_eq_max_min _ _ hmax, FMath.Clamp_eq_max_min _ _ hmax]
    simp [hmax]
  · apply CompressData_congr_level
    rw [FMath.Clamp_eq_max_min _ _ hmax, FMath.Clamp_eq_max_min _ _ hmax]
    simp
  · intro L
    have hrun := CompressData_run Z A cctx S SSize L _ _ _ hctx rfl rfl hA
    rw [FMath.Clamp_eq_max_min L _ hmax] at hrun
    exact ⟨_, congrArg Run.outcome hrun⟩

/-- C4, on the stored codec (maximal level 22): the levels 0 and 1 give the same run, and so
do the levels 122 and 22. -/
theorem level_clamping_witness :
    (1 : Int) ≤ storedCodec.ZSTD_maxCLevel ∧
    FZSTDUtils.CompressData storedCodec hostAllocator (some [65, 66, 67]) 3 0 =
      FZSTDUtils.CompressData storedCodec hostAllocator (some [65, 66, 67]) 3 1 ∧
    FZSTDUtils.CompressData storedCodec hostAllocator (some [65, 66, 67]) 3
        (storedCodec.ZSTD_maxCLevel + 100) =
      FZSTDUtils.CompressData storedCodec hostAllocator (some [65, 66, 67]) 3
        storedCodec.ZSTD_maxCLevel :=
  ⟨by decide,
   (level_clamping storedCodec hostAllocator 1 [65, 66, 67] [] 3 0 (by decide) (by decide)
      (by decide)).2.2.1,
   (level_clamping storedCodec hostAllocator 1 [65, 66, 67] [] 3 0 (by decide) (by decide)
      (by decide)).2.2.2.1⟩

/-- C7. Copy-out effect: for an `FZSTDBufferData` whose `Buffer` is non-null and holds the
`BufferSize` bytes it announces, `Move(OutData)` runs to its end and leaves `OutData` with
exactly `BufferSize` elements, equal byte for byte to the contents of the buffer, whatever
`OutData` held before; the allocation is freed and the owner is left with a null `Buffer`
and `BufferSize` 0. -/
theorem copy_out_effect (Self : FZSTDBufferData) (block : List uint8) (OutData : TArray)
    (hBuffer : Self.Buffer = some block) (hholds : Self.BufferSize ≤ block.length) :
    (Self.Move OutData).fault = none ∧
    (Self.Move OutData).OutData.length = Self.BufferSize ∧
    (Self.Move OutData).OutData = block.take Self.BufferSize ∧
    (Self.Move OutData).Self = { Buffer := none, BufferSize := 0 } ∧
    (Self.Move OutData).trace = [.Free] := by
  rw [FZSTDBufferData.Move_run Self block OutData hBuffer hholds]
  simp [hholds]

/-- C7, on a buffer of three bytes and a destination that held five other bytes. -/
theorem copy_out_effect_witness :
    (FZSTDBufferData.Move { Buffer := some [65, 66, 67], BufferSize := 3 } [1, 2, 3, 4, 5]).fault
      = none ∧
    (FZSTDBufferData.Move { Buffer := some [65, 66, 67], BufferSize := 3 }
      [1, 2, 3, 4, 5]).OutData.length = 3 ∧
    (FZSTDBufferData.Move { Buffer := some [65, 66, 67], BufferSize := 3 }
      [1, 2, 3, 4, 5]).OutData = [65, 66, 67] ∧
    (FZSTDBufferData.Move { Buffer := some [65, 66, 67], BufferSize := 3 } [1, 2, 3, 4, 5]).Self
      = { Buffer := none, BufferSize := 0 } ∧
    (FZSTDBufferData.Move { Buffer := some [65, 66, 67], BufferSize := 3 } [1, 2, 3, 4, 5]).trace
      = [.Free] :=
  copy_out_effect { Buffer := some [65, 66, 67], BufferSize := 3 } [65, 66, 67] [1, 2, 3, 4, 5]
    rfl (by decide)

/-- C8. Copy-out consumption: after a `Move` that ran to its end, and after a `Reset`, a
further `Move` fails its check on `Buffer` and leaves the owner and the destination
container as they were, with no call made.  `Move` fails that check if and only if `Buffer`
is null on entry; and for an owner whose buffer holds the `BufferSize` bytes it announces,
`Move` runs to its end if and only if `Buffer` is non-null on entry. -/
theorem copy_out_consumption (Self : FZSTDBufferData) (OutData Other : TArray) :
    ((Self.Move OutData).fault = none →
      (Self.Move OutData).Self.Move Other =
        ⟨some .checkFailed, (Self.Move OutData).Self, Other, []⟩) ∧
    (∀ Self1 : FZSTDBufferData, Self.Reset.outcome = .returned Self1 →
      Self1.Move Other = ⟨some .checkFailed, Self1, Other, []⟩) ∧
    ((Self.Move OutData).fault = some .checkFailed ↔ Self.Buffer = none) ∧
    ((∀ block, Self.Buffer = some block → Self.BufferSize ≤ block.length) →
      ((Self.Move OutData).fault = none ↔ Self.Buffer ≠ none)) := by
  obtain ⟨Buffer, BufferSize⟩ := Self
  cases Buffer with
  | none =>
    simp [FZSTDBufferData.Move, FZSTDBufferData.Reset, pure, Run.pure]
  | some block =>
    have hreset : ∀ Self1 : FZSTDBufferData,
        (FZSTDBufferData.Reset ⟨some block, BufferSize⟩).outcome = .returned Self1 →
        Self1.Move Other = ⟨some .checkFailed, Self1, Other, []⟩ := by
      intro Self1 hreset
      simp [FZSTDBufferData.Reset, FMemory.Free, emit, bind, pure, Run.bind, Run.pure]
        at hreset
      subst hreset
      simp [FZSTDBufferData.Move]
    by_cases hholds : BufferSize ≤ block.length
    · have h := FZSTDBufferData.Move_run ⟨some block, BufferSize⟩ block OutData rfl hholds
      refine ⟨?_, hreset, ?_, ?_⟩
      · intro _
        rw [h]
        simp [FZSTDBufferData.Move]
      · simp [h]
      · intro _
        simp [h]
    · have hcopy : ∀ Dest, FMemory.Memcpy Dest block BufferSize = .fatal .outOfBounds := by
        intro Dest
        simp [FMemory.Memcpy, hholds]
      refine ⟨?_, hreset, ?_, ?_⟩
      · simp [FZSTDBufferData.Move, hcopy]
      · simp [FZSTDBufferData.Move, hcopy]
      · intro hwf
        exact absurd (hwf block rfl) hholds

/-- C8, on a buffer of three bytes: the first `Move` runs to its end, the second one fails
the check and leaves the destination `[9, 9]` as it was; so does a `Move` after `Reset`. -/
theorem copy_out_consumption_witness :
    (FZSTDBufferData.Move { Buffer := some [65, 66, 67], BufferSize := 3 } []).fault = none ∧
    FZSTDBufferData.Move
        (FZSTDBufferData.Move { Buffer := some [65, 66, 67], BufferSize := 3 } []).Self [9, 9] =
      ⟨some .checkFailed,
        (FZSTDBufferData.Move { Buffer := some [65, 66, 67], BufferSize := 3 } []).Self,
        [9, 9], []⟩ ∧
    (FZSTDBufferData.Reset { Buffer := some [65, 66, 67], BufferSize := 3 }).outcome =
      .returned { Buffer := none, BufferSize := 0 } ∧
    FZSTDBufferData.Move { Buffer := none, BufferSize := 0 } [9, 9] =
      ⟨some .checkFailed, { Buffer := none, BufferSize := 0 }, [9, 9], []⟩ ∧
    ((FZSTDBufferData.Move { Buffer := some [65, 66, 67], BufferSize := 3 } []).fault = none ↔
      (FZSTDBufferData.mk (some [65, 66, 67]) 3).Buffer ≠ none) :=
  ⟨by decide,
   (copy_out_consumption { Buffer := some [65, 66, 67], BufferSize := 3 } [] [9, 9]).1
     (by decide),
   by decide,
   (copy_out_consumption { Buffer := some [65, 66, 67], BufferSize := 3 } [] [9, 9]).2.1
     { Buffer := none, BufferSize := 0 } (by decide),
   (copy_out_consumption { Buffer := some [65, 66, 67], BufferSize := 3 } [] [9, 9]).2.2.2
     (by
      intro block hblock
      cases hblock
      decide)⟩

/-- C9, as stated, fails: with a null context and a non-null source the buffer-returning
`CompressData` and `DecompressData` return the invalid (null) result, the very result of a
null source; no check fails. -/
theorem null_context_returns_invalid_result :
    FZSTDUtils.CompressDataCtx storedCodec hostAllocator none (some [65, 66, 67]) 3 3 =
      ⟨[], .returned none⟩ ∧
    FZSTDUtils.DecompressDataCtx storedCodec hostAllocator none (some [3, 65, 66, 67]) 4 =
      ⟨[], .returned none⟩ ∧
    (FZSTDUtils.CompressDataCtx storedCodec hostAllocator none (some [65, 66, 67]) 3 3).outcome ≠
      .fatal .checkFailed ∧
    (FZSTDUtils.DecompressDataCtx storedCodec hostAllocator none (some [3, 65, 66, 67]) 4).outcome
      ≠ .fatal .checkFailed := by
  decide

/-- C9, amended. A null context is guarded, not asserted, by the buffer-returning overloads:
whatever the source, they return the invalid (null) result and make no call.  The fatal
check on the context is the one of the direct-buffer overloads: called with a null context
they stop on a failed check before any call is made. -/
theorem null_context_policy (Z : Codec) (A : Allocator) (SrcBuff DstBuff : Ptr)
    (SrcBuffSize DstBuffSize : Nat) (CompressionLevel : Int) (bRealloc : Bool) :
    FZSTDUtils.CompressDataCtx Z A none SrcBuff SrcBuffSize CompressionLevel =
      ⟨[], .returned none⟩ ∧
    FZSTDUtils.DecompressDataCtx Z A none SrcBuff SrcBuffSize = ⟨[], .returned none⟩ ∧
    FZSTDUtils.CompressDataInto Z A none SrcBuff SrcBuffSize DstBuff DstBuffSize
      CompressionLevel bRealloc = ⟨[], .fatal .checkFailed⟩ ∧
    FZSTDUtils.DecompressDataInto Z A none SrcBuff SrcBuffSize DstBuff DstBuffSize bRealloc =
      ⟨[], .fatal .checkFailed⟩ := by
  refine ⟨?_, ?_, ?_, ?_⟩
  · simp [FZSTDUtils.CompressDataCtx, pure, Run.pure]
  · simp [FZSTDUtils.DecompressDataCtx, pure, Run.pure]
  · cases SrcBuff <;> cases DstBuff <;>
      simp [FZSTDUtils.CompressDataInto, check, abort, bind, Run.bind, Run.pure]
  · cases SrcBuff <;> cases DstBuff <;>
      simp [FZSTDUtils.DecompressDataInto, check, abort, bind, Run.bind, Run.pure]

/-- C10, as stated, fails: the stored codec compresses the empty input to the frame `[0]`,
whose embedded size is 0, and `DecompressData` of that frame returns a valid result whose
`BufferSize` is 0. -/
theorem valid_result_of_length_zero :
    (FZSTDUtils.CompressData storedCodec hostAllocator (some []) 0 3).outcome =
      .returned (some { Buffer := some [0], BufferSize := 1 }) ∧
    storedCodec.ZSTD_findDecompressedSize [0] 1 = 0 ∧
    (FZSTDUtils.DecompressData storedCodec hostAllocator (some [0]) 1).outcome =
      .returned (some { Buffer := some [], BufferSize := 0 }) ∧
    (FZSTDUtils.DecompressDataCtx storedCodec hostAllocator (some ⟨some 2⟩) (some [0]) 1).outcome
      = .returned (some { Buffer := some [], BufferSize := 0 }) := by
  decide

/-- C10, amended. For every result `CompressData` or `DecompressData` returns: the result is
the invalid (null) one if and only if the context is null, the source is null or (for
`DecompressData`) the probed size is one of the two reserved values; and a valid result has
`BufferSize` equal to the value the codec call returned, zero included. -/
theorem validity_and_length (Z : Codec) (A : Allocator) (CCtx : TPSZSTDCCtx)
    (DCtx : TPSZSTDDCtx) (SrcBuff : Ptr) (SrcBuffSize : Nat) (CompressionLevel : Int) :
    (∀ result : TPSZSTDBufferData,
      (FZSTDUtils.CompressDataCtx Z A CCtx SrcBuff SrcBuffSize CompressionLevel).outcome =
        .returned result →
      (result = none ↔ CCtx = none ∨ SrcBuff = none) ∧
      (∀ buffer, result = some buffer →
        ∃ cctx, CCtx = some ⟨some cctx⟩ ∧
          buffer.BufferSize =
            (Z.ZSTD_compressCCtx cctx (Z.ZSTD_compressBound SrcBuffSize) SrcBuff.bytes
              SrcBuffSize (FMath.Clamp CompressionLevel 1 Z.ZSTD_maxCLevel)).1)) ∧
    (∀ result : TPSZSTDBufferData,
      (FZSTDUtils.DecompressDataCtx Z A DCtx SrcBuff SrcBuffSize).outcome = .returned result →
      (result = none ↔ DCtx = none ∨ SrcBuff = none ∨
        FZSTDUtils.IsValidDecompressionSize
          (Z.ZSTD_findDecompressedSize SrcBuff.bytes SrcBuffSize) = false) ∧
      (∀ buffer, result = some buffer →
        ∃ dctx, DCtx = some ⟨some dctx⟩ ∧
          buffer.BufferSize =
            (Z.ZSTD_decompressDCtx dctx (Z.ZSTD_findDecompressedSize SrcBuff.bytes SrcBuffSize)
              SrcBuff.bytes SrcBuffSize).1)) := by
  constructor
  · intro result hrun
    cases SrcBuff with
    | none =>
      simp [FZSTDUtils.CompressDataCtx, pure, Run.pure] at hrun
      subst hrun
      simp
    | some src =>
      cases CCtx with
      | none =>
        simp [FZSTDUtils.CompressDataCtx, pure, Run.pure] at hrun
        subst hrun
        simp
      | some wrapper =>
        obtain ⟨handle⟩ := wrapper
        cases hA : A.MallocFails (Z.ZSTD_compressBound SrcBuffSize) with
        | true =>
          simp [FZSTDUtils.CompressDataCtx, FZSTDUtils.CompressDataInto,
            FZSTDUtils.GetCompressionSize, FMemory.Malloc, Allocator.Malloc, hA, check, abort,
            emit, bind, pure, Run.bind, Run.pure] at hrun
        | false =>
          cases handle with
          | none =>
            simp [FZSTDUtils.CompressDataCtx, FZSTDUtils.CompressDataInto,
              FZSTDUtils.GetCompressionSize, FMemory.Malloc, Allocator.Malloc, hA,
              FZSTDCCtx.deref, check, abort, emit, bind, pure, Run.bind, Run.pure] at hrun
          | some cctx =>
            rw [CompressDataCtx_run Z A cctx src SrcBuffSize CompressionLevel _ _ _ rfl rfl hA]
              at hrun
            simp only [Outcome.returned.injEq] at hrun
            subst hrun
            simp [Ptr.bytes]
  · intro result hrun
    cases SrcBuff with
    | none =>
      simp [FZSTDUtils.DecompressDataCtx, pure, Run.pure] at hrun
      subst hrun
      simp
    | some src =>
      cases DCtx with
      | none =>
        simp [FZSTDUtils.DecompressDataCtx, pure, Run.pure] at hrun
        subst hrun
        simp
      | some wrapper =>
        obtain ⟨handle⟩ := wrapper
        cases hvalid : FZSTDUtils.IsValidDecompressionSize
            (Z.ZSTD_findDecompressedSize src SrcBuffSize) with
        | false =>
          simp [FZSTDUtils.DecompressDataCtx, FZSTDUtils.GetDecompressionSize, hvalid, emit,
            bind, pure, Run.bind, Run.pure, Ptr.bytes] at hrun
          subst hrun
          simp [Ptr.bytes, hvalid]
        | true =>
          cases hA : A.MallocFails (Z.ZSTD_findDecompressedSize src SrcBuffSize) with
          | true =>
            simp [FZSTDUtils.DecompressDataCtx, FZSTDUtils.DecompressDataInto,
              FZSTDUtils.GetDecompressionSize, FMemory.Malloc, Allocator.Malloc, hA, hvalid,
              check, abort, emit, bind, pure, Run.bind, Run.pure, Ptr.bytes] at hrun
          | false =>
            cases handle with
            | none =>
              simp [FZSTDUtils.DecompressDataCtx, FZSTDUtils.DecompressDataInto,
                FZSTDUtils.GetDecompressionSize, FMemory.Malloc, Allocator.Malloc, hA, hvalid,
                FZSTDDCtx.deref, check, abort, emit, bind, pure, Run.bind, Run.pure,
                Ptr.bytes] at hrun
            | some dctx =>
              rw [DecompressDataCtx_run Z A dctx src SrcBuffSize _ _ _ rfl hvalid rfl hA]
                at hrun
              simp only [Outcome.returned.injEq] at hrun
              subst hrun
              simp [Ptr.bytes, hvalid]

/-- C10 amended, on the stored codec: the result of decompressing the frame `[0]` is valid
and its `BufferSize` is the 0 the codec returned; the result of decompressing a source with
no header is the invalid one. -/
theorem validity_and_length_witness :
    (FZSTDUtils.DecompressDataCtx storedCodec hostAllocator (some ⟨some 2⟩) (some [0]) 1).outcome
      = .returned (some { Buffer := some [], BufferSize := 0 }) ∧
    (∃ dctx, (some ⟨some 2⟩ : TPSZSTDDCtx) = some ⟨some dctx⟩ ∧
      (0 : Nat) = (storedCodec.ZSTD_decompressDCtx dctx
        (storedCodec.ZSTD_findDecompressedSize (Ptr.bytes (some [0])) 1)
        (Ptr.bytes (some [0])) 1).1) ∧
    (FZSTDUtils.CompressDataCtx storedCodec hostAllocator (some ⟨some 1⟩) (some [65]) 1 3).outcome
      = .returned (some { Buffer := some [1, 65], BufferSize := 2 }) ∧
    ((some { Buffer := some [1, 65], BufferSize := 2 } : TPSZSTDBufferData) = none ↔
      (some ⟨some 1⟩ : TPSZSTDCCtx) = none ∨ (some [65] : Ptr) = none) :=
  ⟨by decide,
   ((validity_and_length storedCodec hostAllocator none (some ⟨some 2⟩) (some [0]) 1 3).2
      (some { Buffer := some [], BufferSize := 0 }) (by decide)).2
      { Buffer := some [], BufferSize := 0 } rfl,
   by decide,
   ((validity_and_length storedCodec hostAllocator (some ⟨some 1⟩) none (some [65]) 1 3).1
      (some { Buffer := some [1, 65], BufferSize := 2 }) (by decide)).1⟩

/-- C2, the failing run.  The source `[10, 1, 2]` is not a well-formed frame of the stored
codec: its header announces 10 bytes and 2 follow.  The size probe returns 10, the
decompress call reports the error code `2 ^ 64 - 20`, and `DecompressData` reallocates the
destination to `2 ^ 64 - 20` bytes and returns a valid result whose `BufferSize` is
`2 ^ 64 - 20`, although no byte was decoded. -/
theorem decompress_error_code_returned_as_size :
    storedCodec.ZSTD_findDecompressedSize [10, 1, 2] 3 = 10 ∧
    storedCodec.ZSTD_decompressDCtx 2 10 [10, 1, 2] 3 = (2 ^ 64 - 20, []) ∧
    FZSTDUtils.DecompressData storedCodec hostAllocator (some [10, 1, 2]) 3 =
      ⟨[.ZSTD_createDCtx_advanced, .ZSTD_findDecompressedSize 3, .Malloc 10,
        .ZSTD_decompressDCtx 10 3, .Realloc 10 (2 ^ 64 - 20), .ZSTD_freeDCtx],
       .returned (some { Buffer := none, BufferSize := 2 ^ 64 - 20 })⟩ := by
  decide

end ZSTDPlugin
